import Mathlib

/-!
Verification of the SMTP/OAuth2 credential subsystem of the birthday-manager
repository (src/config.py, src/server.py, src/mail_oauth.py).

The Python code is shallowly embedded: settings dictionaries become a record of
optional fields (a key that is absent is `none`; a key that is present holds its
value), Python truthiness is made explicit, and the external cryptographic
primitives (the Fernet token codec and base64, both library code outside the
repository) are abstracted as a structure of functions together with the
round-trip laws the library guarantees.  All repository-level logic (field
handling, branching, message construction) is translated line by line from the
source.
-/

namespace Birthday

/-- A Python scalar as it occurs in the settings JSON: a string or an integer.
Used for the `smtpPort` field, which may arrive as either. -/
inductive PyVal where
  | str (s : String)
  | int (n : Int)
deriving DecidableEq, Repr

/-- Python truthiness of a scalar: `""` and `0` are falsy. -/
def PyVal.truthy : PyVal → Bool
  | .str s => s ≠ ""
  | .int n => n ≠ 0

/-- Truthiness of `settings.get(field)` for a string-valued field:
an absent key and an empty string are both falsy. -/
def truthyStr : Option String → Bool
  | none => false
  | some s => s ≠ ""

/-- Truthiness of `settings.get(field)` for the port field. -/
def truthyPort : Option PyVal → Bool
  | none => false
  | some v => v.truthy

/-- ASCII lower-casing of one character, as `str.lower` acts on the
ASCII range used by this program. -/
def lowerChar (c : Char) : Char :=
  if 65 ≤ c.toNat ∧ c.toNat ≤ 90 then Char.ofNat (c.toNat + 32) else c

/-- Python `s.lower()` on the ASCII range. -/
def lowerStr (s : String) : String := ⟨s.data.map lowerChar⟩

/-- Python substring test `need in hay`. -/
def strContains (hay need : String) : Bool :=
  (List.range (hay.data.length + 1)).any (fun i => need.data.isPrefixOf (hay.data.drop i))

/-- Python `s.split(sep)` for a one-character separator. -/
def splitChar (sep : Char) : List Char → List (List Char)
  | [] => [[]]
  | c :: rest =>
    let r := splitChar sep rest
    if c = sep then [] :: r
    else
      match r with
      | h :: t => (c :: h) :: t
      | [] => [[c]]

/-- Digit-string to number; `none` when empty or a non-digit occurs,
as Python `int` rejects such strings. -/
def parseDigitsAux : List Char → Nat → Option Nat
  | [], acc => some acc
  | c :: r, acc => if c.isDigit then parseDigitsAux r (acc * 10 + (c.toNat - 48)) else none

/-- Parse a non-empty all-digit character list. -/
def parseDigits : List Char → Option Nat
  | [] => none
  | l => parseDigitsAux l 0

/-- Python whitespace characters stripped by `int`. -/
def isWs (c : Char) : Bool := c = ' ' ∨ c = '\t' ∨ c = '\n' ∨ c = '\r'

/-- Strip leading and trailing whitespace. -/
def trimWs (l : List Char) : List Char :=
  ((l.dropWhile isWs).reverse.dropWhile isWs).reverse

/-- Python `int(x)` on a scalar: an integer passes through, a string is
stripped, an optional sign is accepted, and the rest must be digits;
`none` models the `ValueError`. -/
def pyInt : PyVal → Option Int
  | .int n => some n
  | .str s =>
    match trimWs s.data with
    | '+' :: r => (parseDigits r).map Int.ofNat
    | '-' :: r => (parseDigits r).map (fun n => -(n : Int))
    | r => (parseDigits r).map Int.ofNat

/-- The SMTP settings dictionary.  Each field is `none` when the key is
absent from the dictionary and `some v` when present with value `v`. -/
structure Settings where
  authType : Option String := none
  smtpServer : Option String := none
  smtpPort : Option PyVal := none
  smtpEmail : Option String := none
  recipientEmail : Option String := none
  smtpPassword : Option String := none
  googleClientId : Option String := none
  googleClientSecret : Option String := none
  googleRefreshToken : Option String := none
  googleRefreshTokenEncrypted : Option String := none
deriving DecidableEq, Repr

/-- Python truthiness of the settings dictionary itself: the empty dict is
falsy.  Over the tracked key universe, emptiness is all keys absent. -/
def Settings.isEmptyDict (s : Settings) : Bool :=
  s.authType.isNone && s.smtpServer.isNone && s.smtpPort.isNone &&
  s.smtpEmail.isNone && s.recipientEmail.isNone && s.smtpPassword.isNone &&
  s.googleClientId.isNone && s.googleClientSecret.isNone &&
  s.googleRefreshToken.isNone && s.googleRefreshTokenEncrypted.isNone

/-- The Gmail-recognition expression `"gmail.com" in smtp_server or
smtp_server == "smtp.gmail.com"` applied to an already lower-cased server
string; it appears verbatim in `should_use_oauth2` (server.py:185) and in
`validate_smtp_settings` (config.py:266). -/
def gmailRecognized (srvLower : String) : Bool :=
  strContains srvLower "gmail.com" || srvLower = "smtp.gmail.com"

/-! ### Settings validator (config.py: validate_smtp_settings, lines 209-273)

The source builds one `details` list by appending blocks in a fixed order,
each block depending only on `settings`; the embedding mirrors that as a
concatenation of per-block functions, in source order. -/

/-- The `authType` block (config.py:220-222). -/
def authTypeDetails (s : Settings) : List String :=
  let a := lowerStr (s.authType.getD "")
  if a = "app_password" || a = "oauth2" then []
  else ["authType must be \x27app_password\x27 or \x27oauth2\x27"]

/-- The required-fields loop (config.py:225-228), in loop order. -/
def requiredFieldDetails (s : Settings) : List String :=
  (if truthyStr s.smtpServer then [] else ["Missing required field: smtpServer"]) ++
  (if truthyPort s.smtpPort then [] else ["Missing required field: smtpPort"]) ++
  (if truthyStr s.smtpEmail then [] else ["Missing required field: smtpEmail"]) ++
  (if truthyStr s.recipientEmail then [] else ["Missing required field: recipientEmail"])

/-- The Gmail-port detail message (config.py:236). -/
def gmailPortMsg : String := "Gmail requires port 587 (STARTTLS) or 465 (SSL)"

/-- The port block (config.py:230-238): `int(settings.get("smtpPort", 0))`
under a try; range check; then the Gmail rule, whose server test is the exact
membership `settings.get("smtpServer", "").lower() in ["smtp.gmail.com",
"gmail.com"]`. -/
def portDetails (s : Settings) : List String :=
  match pyInt (s.smtpPort.getD (.int 0)) with
  | none => ["smtpPort must be a valid number"]
  | some port =>
    if port < 1 || port > 65535 then ["smtpPort must be between 1 and 65535"]
    else
      let srv := lowerStr (s.smtpServer.getD "")
      if !(port = 587 || port = 465) && (srv = "smtp.gmail.com" || srv = "gmail.com") then
        [gmailPortMsg]
      else []

/-- The email-format test (config.py:244): `"@" not in email or "." not in
email.split("@")[1]`. -/
def emailBad (e : String) : Bool :=
  !(e.data.contains '@') || !(((splitChar '@' e.data).getD 1 []).contains '.')

/-- The email-format loop (config.py:241-245) over smtpEmail, recipientEmail. -/
def emailFormatDetails (s : Settings) : List String :=
  (let e := s.smtpEmail.getD ""
   if e ≠ "" && emailBad e then ["Invalid email format for smtpEmail"] else []) ++
  (let e := s.recipientEmail.getD ""
   if e ≠ "" && emailBad e then ["Invalid email format for recipientEmail"] else [])

/-- The authType-specific block (config.py:248-262). -/
def authSpecificDetails (s : Settings) : List String :=
  let a := lowerStr (s.authType.getD "")
  if a = "app_password" then
    let pw := s.smtpPassword.getD ""
    if pw = "" then ["smtpPassword is required for app_password mode"]
    else if (pw.data.filter (fun c => c ≠ ' ')).length < 12 then
      ["smtpPassword appears too short (App Passwords are 16 characters)"]
    else []
  else if a = "oauth2" then
    (if truthyStr s.googleClientId then [] else ["googleClientId is required for oauth2 mode"]) ++
    (if truthyStr s.googleClientSecret then [] else ["googleClientSecret is required for oauth2 mode"]) ++
    (if truthyStr s.googleRefreshToken || truthyStr s.googleRefreshTokenEncrypted then []
     else ["googleRefreshToken is required for oauth2 mode (connect Gmail first)"])
  else []

/-- The Gmail-server block (config.py:265-268); its condition
`is_gmail and not smtp_server` is retained verbatim. -/
def gmailServerDetails (s : Settings) : List String :=
  let srv := lowerStr (s.smtpServer.getD "")
  if gmailRecognized srv && srv = "" then ["For Gmail, use smtp.gmail.com"] else []

/-- config.py:209-273 `validate_smtp_settings`: returns
`(is_valid, error_message, details_list)`. -/
def validate_smtp_settings (s : Settings) : Bool × Option String × List String :=
  let details :=
    authTypeDetails s ++ requiredFieldDetails s ++ portDetails s ++
    emailFormatDetails s ++ authSpecificDetails s ++ gmailServerDetails s
  if details.isEmpty then (true, none, []) else (false, some "INVALID_CONFIG", details)

/-! ### Auth-mode selection and mail dispatch (server.py, mail_oauth.py) -/

/-- server.py:174-198 `should_use_oauth2`. -/
def should_use_oauth2 (s : Settings) : Bool :=
  let srv := lowerStr (s.smtpServer.getD "")
  let gmail := gmailRecognized srv
  if !gmail then false
  else
    truthyStr s.googleClientId && truthyStr s.googleClientSecret &&
      (truthyStr s.googleRefreshToken || truthyStr s.googleRefreshTokenEncrypted)

/-- One observable action of a send: a network step of the SMTP session or of
the token broker.  Lookups and parsing that happen before any network I/O are
not actions. -/
inductive SmtpAction where
  | connect (server : String) (port : Int)
  | connectSSL (server : String) (port : Int)
  | ehlo
  | starttls
  | login (email password : String)
  | sendMsg
  | fetchToken (clientId clientSecret refreshToken : String)
  | authXoauth2 (email : String)
deriving DecidableEq, Repr

/-- A Python exception raised before the first network action. -/
inductive PyError where
  | keyError (k : String)
  | valueError
deriving DecidableEq, Repr

/-- mail_oauth.py:73-108 `send_gmail_app_password`: port 465 opens an
implicit-TLS connection, any other port negotiates, upgrades with STARTTLS,
re-negotiates, then logs in and sends. -/
def send_gmail_app_password (server : String) (port : Int) (email password : String) :
    List SmtpAction :=
  if port = 465 then
    [.connectSSL server port, .login email password, .sendMsg]
  else
    [.connect server port, .ehlo, .starttls, .ehlo, .login email password, .sendMsg]

/-- server.py:201-268 `send_email_with_auth`: the dispatcher used by every send
endpoint.  Returns the network actions performed and, when a lookup or parse
raises first, the exception with an empty action list (all subscripts and the
port parse precede any network I/O in the source).  The OAuth2 branch models
the happy-path session of `send_gmail_oauth2`; the password branch is the
inline session of lines 260-268, which upgrades with STARTTLS on every port. -/
def send_email_with_auth (s : Settings) : List SmtpAction × Option PyError :=
  match s.smtpServer with
  | none => ([], some (.keyError "smtpServer"))
  | some server =>
  match s.smtpPort with
  | none => ([], some (.keyError "smtpPort"))
  | some pv =>
  match pyInt pv with
  | none => ([], some .valueError)
  | some port =>
  match s.smtpEmail with
  | none => ([], some (.keyError "smtpEmail"))
  | some email =>
  if should_use_oauth2 s then
    match s.googleClientId with
    | none => ([], some (.keyError "googleClientId"))
    | some cid =>
    match s.googleClientSecret with
    | none => ([], some (.keyError "googleClientSecret"))
    | some csec =>
    match s.googleRefreshToken with
    | none => ([], some (.keyError "googleRefreshToken"))
    | some rtok =>
      ([.fetchToken cid csec rtok, .connect server port, .ehlo, .starttls, .ehlo,
        .authXoauth2 email, .sendMsg], none)
  else
    match s.smtpPassword with
    | none => ([], some (.keyError "smtpPassword"))
    | some password =>
      ([.connect server port, .ehlo, .starttls, .ehlo, .login email password, .sendMsg], none)

/-! ### Secret codec (config.py:54-75)

The Fernet cipher and the base64 codec are cryptography-library code, outside
the repository; they are abstracted as a structure of functions carrying the
round-trip laws the library guarantees for a well-formed key (the key produced
by `get_encryption_key`, config.py:22-51, is such a key).  Python `bytes`
values are identified with the strings they encode/decode, so `.encode()` and
`.decode()` are identities of the model.  Repository-level composition and
exception handling are translated from the source. -/

structure FernetPrim where
  /-- The library `Fernet(key).encrypt` for the derived key. -/
  fEncrypt : String → String
  /-- The library `Fernet(key).decrypt`; `none` models the raised exception. -/
  fDecrypt : String → Option String
  /-- The library `base64.urlsafe_b64encode`. -/
  b64encode : String → String
  /-- The library `base64.urlsafe_b64decode`; `none` models the raised exception. -/
  b64decode : String → Option String
  /-- The library law: a Fernet token decrypts back to its plaintext. -/
  fernet_roundtrip : ∀ s, fDecrypt (fEncrypt s) = some s
  /-- The library law: base64 decoding inverts encoding. -/
  b64_roundtrip : ∀ s, b64decode (b64encode s) = some s

/-- config.py:54-63 `encrypt_refresh_token`: base64-encode the Fernet token of
the plaintext.  The `except` fallback (return the token as-is) is unreachable
in the model because the abstracted primitives are total for a valid key. -/
def encrypt_refresh_token (P : FernetPrim) (token : String) : String :=
  P.b64encode (P.fEncrypt token)

/-- config.py:66-75 `decrypt_refresh_token`: base64-decode then Fernet-decrypt;
any failure yields `none` via the `except` clause. -/
def decrypt_refresh_token (P : FernetPrim) (encrypted_token : String) : Option String :=
  (P.b64decode encrypted_token).bind P.fDecrypt

/-! ### Config store (config.py:78-206) -/

/-- The persisted config document `{"smtp": ...}`; `smtp = none` when the key
is absent. -/
structure ConfigDoc where
  smtp : Option Settings := none
deriving DecidableEq, Repr

/-- The legacy `data/smtp.json` document (config.py:132-161). -/
structure OldConfig where
  encryptedPassword : Option String := none
  key : Option String := none
  iv : Option String := none
  smtpServer : Option String := none
  smtpPort : Option PyVal := none
  smtpEmail : Option String := none
  recipientEmail : Option String := none
deriving DecidableEq, Repr

/-- The on-disk state the config store reads and writes: the current config
file (`none` = absent or unparsable, which `load_config` treats alike) and the
legacy file. -/
structure St where
  config : Option ConfigDoc := none
  legacy : Option OldConfig := none
deriving DecidableEq, Repr

/-- config.py:78-89 `load_config`: an absent or corrupt file loads as `{}`. -/
def load_config (st : St) : Option ConfigDoc := st.config

/-- The empty settings dictionary (`config.get("smtp", {})` default). -/
def emptySettings : Settings := {}

/-- The five-field dictionary built by the legacy reader (config.py:151-157). -/
def migratedSettings (oc : OldConfig) (pw : String) : Settings :=
  { smtpServer := some (oc.smtpServer.getD "")
    smtpPort := some (oc.smtpPort.getD (.str ""))
    smtpEmail := some (oc.smtpEmail.getD "")
    smtpPassword := some pw
    recipientEmail := some (oc.recipientEmail.getD "") }

/-- config.py:132-161 `get_old_smtp_settings`, parametrized by the legacy
AES-CBC decryptor `decrypt_password` (config.py:108-129, whose body is
cryptography-library code): when the legacy file exists and carries the three
crypto keys and the password decrypts to a truthy string, return the migrated
five-field dictionary; otherwise `none`. -/
def get_old_smtp_settings (dp : String → String → String → Option String)
    (st : St) : Option Settings :=
  match st.legacy with
  | none => none
  | some oc =>
    if oc.encryptedPassword.isSome ∧ oc.key.isSome ∧ oc.iv.isSome then
      match dp (oc.encryptedPassword.getD "") (oc.key.getD "") (oc.iv.getD "") with
      | some pw => if pw = "" then none else some (migratedSettings oc pw)
      | none => none
    else none

/-- config.py:189-206 `save_smtp_settings`: on a copy, when a truthy plaintext
refresh token is present, store its encryption under
`googleRefreshTokenEncrypted` and drop the plaintext key; then write the
document with the copy as its `smtp` section. -/
def save_smtp_settings (P : FernetPrim) (s : Settings) (st : St) : St :=
  let t :=
    if s.googleRefreshToken.isSome ∧ truthyStr s.googleRefreshToken then
      { s with
        googleRefreshTokenEncrypted :=
          some (encrypt_refresh_token P (s.googleRefreshToken.getD ""))
        googleRefreshToken := none }
    else s
  let cfg := (load_config st).getD {}
  { st with config := some { cfg with smtp := some t } }

/-- The decryption step of `get_smtp_settings` (config.py:171-176): when a
truthy ciphertext is present and decrypts to a truthy plaintext, move it to
the plaintext key and pop the ciphertext key; otherwise leave the dictionary
unchanged. -/
def decryptStep (P : FernetPrim) (s : Settings) : Settings :=
  if truthyStr s.googleRefreshTokenEncrypted then
    match decrypt_refresh_token P (s.googleRefreshTokenEncrypted.getD "") with
    | some d =>
      if d = "" then s
      else { s with googleRefreshToken := some d, googleRefreshTokenEncrypted := none }
    | none => s
  else s

/-- config.py:164-186 `get_smtp_settings`: load the `smtp` section, decrypt
the refresh token, and when the result is the empty dictionary or has no
truthy password, attempt the one-time legacy migration (saving the migrated
settings before returning them).  Returns the settings and the resulting
on-disk state. -/
def get_smtp_settings (P : FernetPrim) (dp : String → String → String → Option String)
    (st : St) : Settings × St :=
  let s0 := (load_config st).elim emptySettings (fun c => c.smtp.getD emptySettings)
  let s1 := decryptStep P s0
  if s1.isEmptyDict || !truthyStr s1.smtpPassword then
    match get_old_smtp_settings dp st with
    | some old => (old, save_smtp_settings P old st)
    | none => (s1, st)
  else (s1, st)

/-- server.py:448-463 `api_get_config`: the response keeps every key of the
settings returned by `get_smtp_settings` except `smtpPassword`,
`googleClientSecret` and `googleRefreshToken`. -/
def api_get_config_response (s : Settings) : Settings :=
  { s with smtpPassword := none, googleClientSecret := none, googleRefreshToken := none }

/-! ### OAuth2 device-flow poll (server.py:558-633) -/

/-- The JSON body returned by the provider token endpoint for one poll, over
the keys the handler inspects; `none` = key absent. -/
structure PollResult where
  error : Option String := none
  error_description : Option String := none
  refresh_token : Option String := none
deriving DecidableEq, Repr

/-- The client-facing JSON response of the poll endpoint: `status`, optional
`message`, optional `error` keys, and the HTTP status code. -/
structure PollResponse where
  status : String
  message : Option String := none
  err : Option String := none
  http : Nat
deriving DecidableEq, Repr

/-- server.py:589-616, the response mapping of `api_oauth_device_poll` on a
parsed provider body: the `error` key (when present, lines 593-602) is handled
first; otherwise a missing `refresh_token` is an error and a present one is
success, whose fixed response never carries the token (lines 604-616). -/
def api_oauth_device_poll (r : PollResult) : PollResponse :=
  match r.error with
  | some e =>
    if e = "authorization_pending" then
      { status := "pending", message := some "Waiting for authorization...", http := 200 }
    else if e = "slow_down" then
      { status := "slow_down", message := some "Please wait before polling again", http := 200 }
    else if e = "expired_token" then
      { status := "expired", err := some "Device code expired. Please start over.", http := 400 }
    else
      { status := "error", err := some (r.error_description.getD e), http := 400 }
  | none =>
    match r.refresh_token with
    | none => { status := "error", err := some "No refresh token in response", http := 500 }
    | some _ =>
      { status := "success", message := some "Gmail OAuth2 connected successfully!", http := 200 }

/-! ### Concrete instances used to evaluate the model -/

/-- A trivial Fernet instance (identity cipher): the simplest inhabitant of
the primitive interface. -/
def idPrim : FernetPrim where
  fEncrypt := fun s => s
  fDecrypt := some
  b64encode := fun s => s
  b64decode := some
  fernet_roundtrip := fun _ => rfl
  b64_roundtrip := fun _ => rfl

/-- A Fernet instance whose tokens are exactly the strings starting with `G`:
decryption fails on any string that does not, as the real cipher fails on
malformed or tampered input. -/
def gPrim : FernetPrim where
  fEncrypt := fun s => ⟨'G' :: s.data⟩
  fDecrypt := fun s =>
    match s.data with
    | c :: r => if c = 'G' then some ⟨r⟩ else none
    | [] => none
  b64encode := fun s => s
  b64decode := some
  fernet_roundtrip := fun s => by simp
  b64_roundtrip := fun _ => rfl

/-- A legacy decryptor that always fails. -/
def dpNone : String → String → String → Option String := fun _ _ _ => none

/-- An smtp section storing a ciphertext (`"BAD"`) that the cipher cannot
decrypt, next to a configured password. -/
def c1Smtp : Settings :=
  { smtpPassword := some "pw", googleRefreshTokenEncrypted := some "BAD" }

/-- A persisted state whose smtp section is `c1Smtp`. -/
def c1State : St := { config := some { smtp := some c1Smtp } }

/-- An smtp section storing the decryptable ciphertext `"GX"` next to a
configured password. -/
def c1GoodSmtp : Settings :=
  { smtpPassword := some "pw", googleRefreshTokenEncrypted := some "GX" }

/-- A persisted state whose smtp section is `c1GoodSmtp`. -/
def c1GoodState : St := { config := some { smtp := some c1GoodSmtp } }

/-- Settings whose server contains `gmail.com` without being equal to
`smtp.gmail.com` or `gmail.com`, with port 25. -/
def c2Settings : Settings :=
  { smtpServer := some "mail.gmail.com", smtpPort := some (.str "25")
    authType := some "app_password", smtpPassword := some "xxxxxxxxxxxxxxxx"
    smtpEmail := some "a@b.com", recipientEmail := some "c@d.com" }

/-- A valid app-password configuration with port 465. -/
def c3Settings : Settings :=
  { smtpServer := some "smtp.gmail.com", smtpPort := some (.int 465)
    authType := some "app_password", smtpPassword := some "abcdabcdabcdabcd"
    smtpEmail := some "user@gmail.com", recipientEmail := some "r@x.com" }

/-- A provider poll body carrying both an `error` key and a `refresh_token`. -/
def c7Poll : PollResult :=
  { error := some "authorization_pending", refresh_token := some "tok" }

/-- A provider poll body carrying only a refresh token. -/
def c7Success : PollResult := { refresh_token := some "tok" }

/-- OAuth2-eligible settings whose only refresh token is the encrypted one. -/
def c10Settings : Settings :=
  { smtpServer := some "smtp.gmail.com", smtpPort := some (.str "587")
    smtpEmail := some "user@gmail.com", recipientEmail := some "r@x.com"
    authType := some "oauth2", googleClientId := some "id"
    googleClientSecret := some "sec", googleRefreshTokenEncrypted := some "BAD" }

/-- A legacy file with the three crypto fields and plain connection fields. -/
def c9Old : OldConfig :=
  { encryptedPassword := some "aa11", key := some "bb22", iv := some "cc33"
    smtpServer := some "smtp.example.com", smtpPort := some (.int 587)
    smtpEmail := some "me@example.com", recipientEmail := some "you@example.com" }

/-- A legacy decryptor succeeding exactly on the hex material of `c9Old`. -/
def c9Dp : String → String → String → Option String :=
  fun ep k iv => if ep = "aa11" ∧ k = "bb22" ∧ iv = "cc33" then some "oldpw" else none

/-- Settings holding a plaintext refresh token, a client secret and a
password. -/
def c8Settings : Settings :=
  { smtpServer := some "smtp.gmail.com", smtpPort := some (.int 587)
    smtpEmail := some "user@gmail.com", recipientEmail := some "r@x.com"
    authType := some "oauth2", googleClientId := some "id"
    googleClientSecret := some "sec", googleRefreshToken := some "tok" }

/-- The smtp section of the document persisted by `save_smtp_settings`. -/
def savedSmtp (P : FernetPrim) (s : Settings) (st : St) : Option Settings :=
  ((save_smtp_settings P s st).config.getD {}).smtp

/-! ### Helper lemmas -/

lemma mem_ite_nil_then {α} {c : Prop} [Decidable c] {l : List α} {x : α}
    (h : x ∈ if c then ([] : List α) else l) : x ∈ l := by
  split at h
  · exact absurd h (List.not_mem_nil x)
  · exact h

lemma mem_ite_nil_else {α} {c : Prop} [Decidable c] {l : List α} {x : α}
    (h : x ∈ if c then l else ([] : List α)) : x ∈ l := by
  split at h
  · exact h
  · exact absurd h (List.not_mem_nil x)

lemma mem_authTypeDetails {s : Settings} {x : String} (h : x ∈ authTypeDetails s) :
    x = "authType must be \x27app_password\x27 or \x27oauth2\x27" := by
  simp only [authTypeDetails] at h
  have h := mem_ite_nil_then h
  simpa using h

lemma mem_requiredFieldDetails {s : Settings} {x : String} (h : x ∈ requiredFieldDetails s) :
    x = "Missing required field: smtpServer" ∨ x = "Missing required field: smtpPort" ∨
    x = "Missing required field: smtpEmail" ∨ x = "Missing required field: recipientEmail" := by
  simp only [requiredFieldDetails, List.mem_append] at h
  rcases h with ((h | h) | h) | h <;>
    first
      | exact Or.inl (by simpa using mem_ite_nil_then h)
      | exact Or.inr (Or.inl (by simpa using mem_ite_nil_then h))
      | exact Or.inr (Or.inr (Or.inl (by simpa using mem_ite_nil_then h)))
      | exact Or.inr (Or.inr (Or.inr (by simpa using mem_ite_nil_then h)))

lemma mem_emailFormatDetails {s : Settings} {x : String} (h : x ∈ emailFormatDetails s) :
    x = "Invalid email format for smtpEmail" ∨ x = "Invalid email format for recipientEmail" := by
  simp only [emailFormatDetails, List.mem_append] at h
  rcases h with h | h
  · exact Or.inl (by simpa using mem_ite_nil_else h)
  · exact Or.inr (by simpa using mem_ite_nil_else h)

lemma mem_authSpecificDetails {s : Settings} {x : String} (h : x ∈ authSpecificDetails s) :
    x = "smtpPassword is required for app_password mode" ∨
    x = "smtpPassword appears too short (App Passwords are 16 characters)" ∨
    x = "googleClientId is required for oauth2 mode" ∨
    x = "googleClientSecret is required for oauth2 mode" ∨
    x = "googleRefreshToken is required for oauth2 mode (connect Gmail first)" := by
  simp only [authSpecificDetails] at h
  split at h
  · split at h
    · exact Or.inl (by simpa using h)
    · split at h
      · exact Or.inr (Or.inl (by simpa using h))
      · exact absurd h (List.not_mem_nil x)
  · split at h
    · simp only [List.mem_append] at h
      rcases h with (h | h) | h
      · exact Or.inr (Or.inr (Or.inl (by simpa using mem_ite_nil_then h)))
      · exact Or.inr (Or.inr (Or.inr (Or.inl (by simpa using mem_ite_nil_then h))))
      · exact Or.inr (Or.inr (Or.inr (Or.inr (by simpa using mem_ite_nil_then h))))
    · exact absurd h (List.not_mem_nil x)

lemma mem_gmailServerDetails {s : Settings} {x : String} (h : x ∈ gmailServerDetails s) :
    x = "For Gmail, use smtp.gmail.com" := by
  simp only [gmailServerDetails] at h
  have h := mem_ite_nil_else h
  simpa using h

/-- The full details list of the validator, in source append order. -/
lemma validate_details_cases (s : Settings) :
    (validate_smtp_settings s).2.2 = [] ∨
    (validate_smtp_settings s).2.2 =
      authTypeDetails s ++ requiredFieldDetails s ++ portDetails s ++
      emailFormatDetails s ++ authSpecificDetails s ++ gmailServerDetails s := by
  simp only [validate_smtp_settings]
  split
  · exact Or.inl rfl
  · exact Or.inr rfl

/-- The Gmail-port message appears in no block other than the port block. -/
lemma gmailPortMsg_not_mem_other_blocks (s : Settings) :
    gmailPortMsg ∉ authTypeDetails s ∧ gmailPortMsg ∉ requiredFieldDetails s ∧
    gmailPortMsg ∉ emailFormatDetails s ∧ gmailPortMsg ∉ authSpecificDetails s ∧
    gmailPortMsg ∉ gmailServerDetails s := by
  refine ⟨fun h => ?_, fun h => ?_, fun h => ?_, fun h => ?_, fun h => ?_⟩
  · exact absurd (mem_authTypeDetails h) (by decide)
  · rcases mem_requiredFieldDetails h with h | h | h | h <;> exact absurd h (by decide)
  · rcases mem_emailFormatDetails h with h | h <;> exact absurd h (by decide)
  · rcases mem_authSpecificDetails h with h | h | h | h | h <;> exact absurd h (by decide)
  · exact absurd (mem_gmailServerDetails h) (by decide)

/-! ### C2 -/

/-- C2 counterexample: `c2Settings` has a server that contains `gmail.com`
(case-insensitively) without being equal to `smtp.gmail.com` or `gmail.com`,
and a port parsing to 25 ∈ [1,65535] \ {587,465}; the claim demands a
Gmail-port detail, but the validator returns none. -/
theorem C2_counterexample :
    strContains (lowerStr (c2Settings.smtpServer.getD "")) "gmail.com" = true ∧
    lowerStr (c2Settings.smtpServer.getD "") ≠ "smtp.gmail.com" ∧
    lowerStr (c2Settings.smtpServer.getD "") ≠ "gmail.com" ∧
    pyInt (c2Settings.smtpPort.getD (.int 0)) = some 25 ∧
    gmailPortMsg ∉ (validate_smtp_settings c2Settings).2.2 := by decide

/-- C2 (amended): the validator emits the Gmail-port detail exactly for ports
in [1,65535] other than 587/465 when the lower-cased server is equal to
`smtp.gmail.com` or `gmail.com` (equality, not containment). -/
theorem C2_gmail_port_rule (s : Settings) (p : Int)
    (hparse : pyInt (s.smtpPort.getD (.int 0)) = some p)
    (hlo : 1 ≤ p) (hhi : p ≤ 65535)
    (hsrv : lowerStr (s.smtpServer.getD "") = "smtp.gmail.com" ∨
            lowerStr (s.smtpServer.getD "") = "gmail.com") :
    ((p ≠ 587 ∧ p ≠ 465) → gmailPortMsg ∈ (validate_smtp_settings s).2.2) ∧
    ((p = 587 ∨ p = 465) → gmailPortMsg ∉ (validate_smtp_settings s).2.2) := by
  have h1 : ¬ p < 1 := by omega
  have h2 : ¬ p > 65535 := by omega
  constructor
  · rintro ⟨h3, h4⟩
    have hport : portDetails s = [gmailPortMsg] := by
      rcases hsrv with hsrv | hsrv <;>
        simp [portDetails, hparse, h1, h2, h3, h4, hsrv]
    have hmem : gmailPortMsg ∈
        authTypeDetails s ++ requiredFieldDetails s ++ portDetails s ++
        emailFormatDetails s ++ authSpecificDetails s ++ gmailServerDetails s := by
      simp [List.mem_append, hport]
    simp only [validate_smtp_settings]
    rw [if_neg]
    · exact hmem
    · simpa using List.ne_nil_of_mem hmem
  · intro h34
    have hport : portDetails s = [] := by
      rcases h34 with h3 | h3 <;> rcases hsrv with hsrv | hsrv <;>
        simp [portDetails, hparse, h1, h2, h3, hsrv]
    obtain ⟨n1, n2, n3, n4, n5⟩ := gmailPortMsg_not_mem_other_blocks s
    rcases validate_details_cases s with hd | hd
    · rw [hd]; exact List.not_mem_nil _
    · rw [hd]
      simp only [List.mem_append, hport, List.mem_nil_iff, or_false, false_or]
      tauto

/-- C2 witness: the amended rule applied at `c3Settings` (exact server
`smtp.gmail.com`, port 465). -/
theorem C2_witness :
    gmailPortMsg ∉ (validate_smtp_settings c3Settings).2.2 :=
  (C2_gmail_port_rule c3Settings 465 (by decide) (by decide) (by decide)
    (Or.inl (by decide))).2 (Or.inr rfl)

/-! ### C5 -/

/-- C5: the validator collects every violation without short-circuiting: with
all of smtpServer, smtpPort, smtpEmail, recipientEmail missing (falsy), all
four missing-field messages appear in the returned details, and the result is
valid exactly when the details list is empty. -/
theorem C5_collects_all (s : Settings) :
    (truthyStr s.smtpServer = false → truthyPort s.smtpPort = false →
     truthyStr s.smtpEmail = false → truthyStr s.recipientEmail = false →
      ("Missing required field: smtpServer" ∈ (validate_smtp_settings s).2.2 ∧
       "Missing required field: smtpPort" ∈ (validate_smtp_settings s).2.2 ∧
       "Missing required field: smtpEmail" ∈ (validate_smtp_settings s).2.2 ∧
       "Missing required field: recipientEmail" ∈ (validate_smtp_settings s).2.2)) ∧
    ((validate_smtp_settings s).1 = true ↔ (validate_smtp_settings s).2.2 = []) := by
  constructor
  · intro h1 h2 h3 h4
    have hreq : requiredFieldDetails s =
        ["Missing required field: smtpServer", "Missing required field: smtpPort",
         "Missing required field: smtpEmail", "Missing required field: recipientEmail"] := by
      simp [requiredFieldDetails, h1, h2, h3, h4]
    have key : ∀ x, x ∈ requiredFieldDetails s → x ∈ (validate_smtp_settings s).2.2 := by
      intro x hx
      have hmem : x ∈
          authTypeDetails s ++ requiredFieldDetails s ++ portDetails s ++
          emailFormatDetails s ++ authSpecificDetails s ++ gmailServerDetails s := by
        simp only [List.mem_append]
        tauto
      simp only [validate_smtp_settings]
      rw [if_neg]
      · exact hmem
      · simpa using List.ne_nil_of_mem hmem
    refine ⟨key _ ?_, key _ ?_, key _ ?_, key _ ?_⟩ <;> simp [hreq]
  · simp only [validate_smtp_settings]
    split
    · next hEmp => simp [List.isEmpty_iff.mp hEmp]
    · next hEmp =>
        simp only []
        constructor
        · intro h; exact absurd h (by decide)
        · intro h; exact absurd (List.isEmpty_iff.mpr h) hEmp

/-- C5 witness: the validator applied to the empty settings dictionary. -/
theorem C5_witness :
    "Missing required field: smtpServer" ∈ (validate_smtp_settings emptySettings).2.2 ∧
    "Missing required field: smtpPort" ∈ (validate_smtp_settings emptySettings).2.2 ∧
    "Missing required field: smtpEmail" ∈ (validate_smtp_settings emptySettings).2.2 ∧
    "Missing required field: recipientEmail" ∈ (validate_smtp_settings emptySettings).2.2 :=
  (C5_collects_all emptySettings).1 (by decide) (by decide) (by decide) (by decide)

/-! ### C3 -/

/-- C3: the dispatcher `send_email_with_auth` takes the password path on
`c3Settings` (port 465) with a plain connection followed by STARTTLS — it
never opens an implicit-TLS connection — while the helper
`send_gmail_app_password` (which no caller invokes) does branch to implicit
TLS on port 465 as the claim describes. -/
theorem C3_dispatcher_ignores_port465 :
    send_email_with_auth c3Settings =
      ([.connect "smtp.gmail.com" 465, .ehlo, .starttls, .ehlo,
        .login "user@gmail.com" "abcdabcdabcdabcd", .sendMsg], none) ∧
    SmtpAction.connectSSL "smtp.gmail.com" 465 ∉ (send_email_with_auth c3Settings).1 ∧
    send_gmail_app_password "smtp.gmail.com" 465 "user@gmail.com" "abcdabcdabcdabcd" =
      [.connectSSL "smtp.gmail.com" 465, .login "user@gmail.com" "abcdabcdabcdabcd",
       .sendMsg] := by decide

/-! ### C7 -/

/-- C7 counterexample: a provider body carrying both
`error = authorization_pending` and a `refresh_token` is mapped to status
`pending`, not `success`, so the claim clause "a response containing
refresh_token yields status success" fails as a standalone universal. -/
theorem C7_counterexample :
    c7Poll.refresh_token = some "tok" ∧
    (api_oauth_device_poll c7Poll).status = "pending" ∧
    (api_oauth_device_poll c7Poll).status ≠ "success" := by decide

/-- C7 (amended): the error key, when present, is mapped first
(`authorization_pending` → pending, `slow_down` → slow_down, `expired_token` →
expired, anything else → error with the provider message); a body without an
error key and with a refresh token yields status success, and the success
response is a fixed document that never carries the token. -/
theorem C7_poll_mapping (r : PollResult) :
    (r.error = some "authorization_pending" →
      (api_oauth_device_poll r).status = "pending" ∧ (api_oauth_device_poll r).http = 200) ∧
    (r.error = some "slow_down" →
      (api_oauth_device_poll r).status = "slow_down" ∧ (api_oauth_device_poll r).http = 200) ∧
    (r.error = some "expired_token" →
      (api_oauth_device_poll r).status = "expired" ∧ (api_oauth_device_poll r).http = 400) ∧
    (∀ e, r.error = some e → e ≠ "authorization_pending" → e ≠ "slow_down" →
      e ≠ "expired_token" →
      (api_oauth_device_poll r).status = "error" ∧
      (api_oauth_device_poll r).err = some (r.error_description.getD e)) ∧
    (r.error = none → r.refresh_token.isSome = true →
      (api_oauth_device_poll r).status = "success" ∧
      api_oauth_device_poll r =
        { status := "success", message := some "Gmail OAuth2 connected successfully!",
          http := 200 }) := by
  refine ⟨?_, ?_, ?_, ?_, ?_⟩
  · intro h; simp [api_oauth_device_poll, h]
  · intro h; simp [api_oauth_device_poll, h]
  · intro h; simp [api_oauth_device_poll, h]
  · intro e h h1 h2 h3; simp [api_oauth_device_poll, h, h1, h2, h3]
  · intro h htok
    cases hrt : r.refresh_token with
    | none => rw [hrt] at htok; exact absurd htok (by decide)
    | some t => simp [api_oauth_device_poll, h, hrt]

/-- C7 witness: the amended mapping applied to a body carrying only a refresh
token. -/
theorem C7_witness :
    (api_oauth_device_poll c7Success).status = "success" ∧
    api_oauth_device_poll c7Success =
      { status := "success", message := some "Gmail OAuth2 connected successfully!",
        http := 200 } :=
  (C7_poll_mapping c7Success).2.2.2.2 rfl (by decide)

/-! ### C4 -/

/-- C4: for every Fernet primitive satisfying the library laws (in particular
the one built from any key produced by the derivation path) and every
non-empty token, decrypting the encryption of the token returns the token. -/
theorem C4_roundtrip (P : FernetPrim) (token : String) (_h : token ≠ "") :
    decrypt_refresh_token P (encrypt_refresh_token P token) = some token := by
  simp [decrypt_refresh_token, encrypt_refresh_token, P.b64_roundtrip, P.fernet_roundtrip]

/-- C4 witness: the round-trip at a concrete primitive and token. -/
theorem C4_witness :
    "refresh-token-1" ≠ "" ∧
    decrypt_refresh_token idPrim (encrypt_refresh_token idPrim "refresh-token-1") =
      some "refresh-token-1" :=
  ⟨by decide, C4_roundtrip idPrim "refresh-token-1" (by decide)⟩

/-! ### C6 -/

/-- Unfolded form of `should_use_oauth2`. -/
lemma should_use_oauth2_spec (s : Settings) :
    should_use_oauth2 s =
      (gmailRecognized (lowerStr (s.smtpServer.getD "")) &&
       (truthyStr s.googleClientId && truthyStr s.googleClientSecret &&
        (truthyStr s.googleRefreshToken || truthyStr s.googleRefreshTokenEncrypted))) := by
  simp only [should_use_oauth2]
  cases gmailRecognized (lowerStr (s.smtpServer.getD "")) <;> simp

/-- The empty server string is not recognized as Gmail. -/
lemma gmailRecognized_empty : gmailRecognized (lowerStr "") = false := by decide

/-- C10: when `should_use_oauth2` approves the settings but the plaintext
refresh-token key is absent (only the encrypted one survives, as after a
failed decryption on load), the dispatcher raises the key-lookup error for
`googleRefreshToken` having performed no network action: it neither sends nor
falls back to password authentication. -/
theorem C10_oauth_missing_plaintext (s : Settings) (pv : PyVal) (port : Int) (email : String)
    (hO : should_use_oauth2 s = true)
    (hrt : s.googleRefreshToken = none)
    (hpv : s.smtpPort = some pv) (hport : pyInt pv = some port)
    (hem : s.smtpEmail = some email) :
    send_email_with_auth s = ([], some (.keyError "googleRefreshToken")) := by
  have hspec := should_use_oauth2_spec s
  rw [hO] at hspec
  cases hsrv : s.smtpServer with
  | none =>
    rw [hsrv] at hspec
    simp [gmailRecognized_empty] at hspec
  | some server =>
    rw [hsrv] at hspec
    have hA : truthyStr s.googleClientId = true ∧ truthyStr s.googleClientSecret = true := by
      have := hspec.symm
      simp only [Bool.and_eq_true] at this
      exact ⟨this.2.1.1, this.2.1.2⟩
    cases hcid : s.googleClientId with
    | none => rw [hcid] at hA; exact absurd hA.1 (by decide)
    | some cid =>
      cases hcs : s.googleClientSecret with
      | none => rw [hcs] at hA; exact absurd hA.2 (by decide)
      | some cs =>
        simp [send_email_with_auth, hsrv, hpv, hport, hem, hO, hcid, hcs, hrt]

/-- C10 witness: `c10Settings` carries only the encrypted token and is
OAuth2-eligible; the dispatch fails on the plaintext key lookup with no
action performed. -/
theorem C10_witness :
    send_email_with_auth c10Settings = ([], some (.keyError "googleRefreshToken")) :=
  C10_oauth_missing_plaintext c10Settings (.str "587") 587 "user@gmail.com"
    (by decide) rfl rfl (by decide) rfl

/-! ### C8 -/

/-- C8: saving settings with a non-empty plaintext refresh token persists an
smtp section equal to the input with the ciphertext stored under
`googleRefreshTokenEncrypted` and the plaintext key removed; every other
field, `googleClientSecret` included, is retained. -/
theorem C8_save_encrypts (P : FernetPrim) (s : Settings) (st : St) (tok : String)
    (h : s.googleRefreshToken = some tok) (hne : tok ≠ "") :
    savedSmtp P s st =
      some { s with
             googleRefreshTokenEncrypted := some (encrypt_refresh_token P tok)
             googleRefreshToken := none } := by
  simp [savedSmtp, save_smtp_settings, h, truthyStr, hne]

/-- C8 witness: saving `c8Settings` (token `"tok"`) into the empty state. -/
theorem C8_witness :
    savedSmtp idPrim c8Settings {} =
      some { c8Settings with
             googleRefreshTokenEncrypted := some (encrypt_refresh_token idPrim "tok")
             googleRefreshToken := none } :=
  C8_save_encrypts idPrim c8Settings {} "tok" rfl (by decide)

/-! ### C9 -/

/-- C9: with no current config and a legacy file whose encrypted password
material decrypts to a non-empty password, the first `get_smtp_settings` call
returns the migrated settings (decrypted password included) and persists them
as the current-format config; a second call returns the same settings and
state no matter what the legacy file then holds or how the legacy decryptor
behaves — the legacy file is not re-read. -/
theorem C9_migration (P : FernetPrim) (dp : String → String → String → Option String)
    (oc : OldConfig) (ep k iv pw : String)
    (hep : oc.encryptedPassword = some ep) (hk : oc.key = some k) (hiv : oc.iv = some iv)
    (hdp : dp ep k iv = some pw) (hpw : pw ≠ "") :
    (get_smtp_settings P dp { config := none, legacy := some oc }).1 =
      migratedSettings oc pw ∧
    (get_smtp_settings P dp { config := none, legacy := some oc }).1.smtpPassword =
      some pw ∧
    (get_smtp_settings P dp { config := none, legacy := some oc }).2 =
      { config := some { smtp := some (migratedSettings oc pw) }, legacy := some oc } ∧
    (∀ (dp2 : String → String → String → Option String) (leg2 : Option OldConfig),
      get_smtp_settings P dp2
          { config := some { smtp := some (migratedSettings oc pw) }, legacy := leg2 } =
        (migratedSettings oc pw,
         { config := some { smtp := some (migratedSettings oc pw) }, legacy := leg2 })) := by
  have hold : get_old_smtp_settings dp { config := none, legacy := some oc } =
      some (migratedSettings oc pw) := by
    simp [get_old_smtp_settings, hep, hk, hiv, hdp, hpw]
  have hsave : save_smtp_settings P (migratedSettings oc pw)
      { config := none, legacy := some oc } =
      { config := some { smtp := some (migratedSettings oc pw) }, legacy := some oc } := by
    simp [save_smtp_settings, migratedSettings, load_config]
  have hfirst : get_smtp_settings P dp { config := none, legacy := some oc } =
      (migratedSettings oc pw,
       { config := some { smtp := some (migratedSettings oc pw) }, legacy := some oc }) := by
    simp [get_smtp_settings, load_config, decryptStep, emptySettings, truthyStr,
      Settings.isEmptyDict, hold, hsave]
  refine ⟨by rw [hfirst], by rw [hfirst]; simp [migratedSettings], by rw [hfirst], ?_⟩
  intro dp2 leg2
  simp [get_smtp_settings, load_config, decryptStep, truthyStr, migratedSettings,
    Settings.isEmptyDict, hpw]

/-- C9 witness: the migration at `c9Old` with the matching decryptor, and the
second call with the legacy file removed and a failing decryptor. -/
theorem C9_witness :
    (get_smtp_settings idPrim c9Dp { config := none, legacy := some c9Old }).1.smtpPassword =
      some "oldpw" ∧
    (get_smtp_settings idPrim c9Dp { config := none, legacy := some c9Old }).2 =
      { config := some { smtp := some (migratedSettings c9Old "oldpw") },
        legacy := some c9Old } ∧
    get_smtp_settings idPrim dpNone
        { config := some { smtp := some (migratedSettings c9Old "oldpw") }, legacy := none } =
      (migratedSettings c9Old "oldpw",
       { config := some { smtp := some (migratedSettings c9Old "oldpw") },
         legacy := none }) := by
  obtain ⟨h1, h2, h3, h4⟩ :=
    C9_migration idPrim c9Dp c9Old "aa11" "bb22" "cc33" "oldpw" rfl rfl rfl (by decide)
      (by decide)
  exact ⟨h2, h3, h4 dpNone none⟩

/-! ### C1 -/

/-- Any settings returned by the legacy reader carry neither token field. -/
lemma get_old_no_tokens (dp : String → String → String → Option String) (st : St)
    (o : Settings) (h : get_old_smtp_settings dp st = some o) :
    o.googleRefreshTokenEncrypted = none ∧ o.googleRefreshToken = none := by
  unfold get_old_smtp_settings at h
  cases hleg : st.legacy with
  | none => rw [hleg] at h; cases h
  | some oc =>
    rw [hleg] at h
    dsimp only at h
    split at h
    · cases hdp : dp (oc.encryptedPassword.getD "") (oc.key.getD "") (oc.iv.getD "") with
      | none => rw [hdp] at h; cases h
      | some pw =>
        rw [hdp] at h
        dsimp only at h
        by_cases hpw0 : pw = ""
        · rw [if_pos hpw0] at h; cases h
        · rw [if_neg hpw0] at h; cases h; exact ⟨rfl, rfl⟩
    · cases h

/-- C1 counterexample: the state `c1State` stores the undecryptable ciphertext
`"BAD"`; `get_smtp_settings` returns settings still carrying the ciphertext
field `googleRefreshTokenEncrypted` and no plaintext token, so the read path
does yield the ciphertext field. -/
theorem C1_counterexample :
    c1Smtp.googleRefreshTokenEncrypted = some "BAD" ∧
    decrypt_refresh_token gPrim "BAD" = none ∧
    (get_smtp_settings gPrim dpNone c1State).1.googleRefreshTokenEncrypted = some "BAD" ∧
    (get_smtp_settings gPrim dpNone c1State).1.googleRefreshToken = none := by decide

/-- C1 (amended): whenever the stored ciphertext decrypts to a non-empty
plaintext, the read path yields settings without the ciphertext field, and —
when a truthy password prevents the legacy fallback from replacing them — with
the refresh token under the plaintext field only; independently, the get-config
response never yields `smtpPassword` or `googleClientSecret`. -/
theorem C1_read_path (P : FernetPrim) (dp : String → String → String → Option String)
    (st : St) (s0 : Settings) (d : String)
    (hs0 : s0 = (load_config st).elim emptySettings (fun c => c.smtp.getD emptySettings))
    (henc : truthyStr s0.googleRefreshTokenEncrypted = true)
    (hdec : decrypt_refresh_token P (s0.googleRefreshTokenEncrypted.getD "") = some d)
    (hd : d ≠ "") :
    ((get_smtp_settings P dp st).1.googleRefreshTokenEncrypted = none ∧
     (truthyStr s0.smtpPassword = true →
       (get_smtp_settings P dp st).1.googleRefreshToken = some d)) ∧
    (∀ u : Settings,
      (api_get_config_response u).smtpPassword = none ∧
      (api_get_config_response u).googleClientSecret = none) := by
  refine ⟨?_, fun u => ⟨rfl, rfl⟩⟩
  have hstep : decryptStep P s0 =
      { s0 with googleRefreshToken := some d, googleRefreshTokenEncrypted := none } := by
    simp [decryptStep, henc, hdec, hd]
  have hget : get_smtp_settings P dp st =
      (let s1 := { s0 with googleRefreshToken := some d,
                           googleRefreshTokenEncrypted := none };
       if s1.isEmptyDict || !truthyStr s1.smtpPassword then
         match get_old_smtp_settings dp st with
         | some old => (old, save_smtp_settings P old st)
         | none => (s1, st)
       else (s1, st)) := by
    rw [get_smtp_settings,
      show (load_config st).elim emptySettings (fun c => c.smtp.getD emptySettings) = s0
        from hs0.symm, hstep]
  constructor
  · rw [hget]
    dsimp only
    rcases hold : get_old_smtp_settings dp st with _ | old
    · split <;> simp [hold]
    · have hno := (get_old_no_tokens dp st old hold).1
      split <;> simp [hold, hno]
  · intro hpw
    rw [hget]
    simp [Settings.isEmptyDict, hpw]

/-- C1 witness: the state `c1GoodState` stores the decryptable ciphertext
`"GX"` next to a truthy password; the read path drops the ciphertext field and
yields the plaintext `"X"`, and the config response hides the secrets. -/
theorem C1_witness :
    ((get_smtp_settings gPrim dpNone c1GoodState).1.googleRefreshTokenEncrypted = none ∧
     (get_smtp_settings gPrim dpNone c1GoodState).1.googleRefreshToken = some "X") ∧
    ((api_get_config_response c1GoodSmtp).smtpPassword = none ∧
     (api_get_config_response c1GoodSmtp).googleClientSecret = none) := by
  obtain ⟨⟨h1, h2⟩, h3⟩ :=
    C1_read_path gPrim dpNone c1GoodState c1GoodSmtp "X" (by decide) (by decide)
      (by decide) (by decide)
  exact ⟨⟨h1, h2 (by decide)⟩, h3 c1GoodSmtp⟩

end Birthday
